import Mathlib

/-!
Verification of the authentication and authorization core of the SEMI portal
(`server/auth.ts` and `client/src/lib/permissions.ts`) against its
natural-language specification.

The TypeScript code is shallowly embedded: user/company records become Lean
structures, the relational store becomes an explicit in-memory `Store`,
request handlers become pure functions from store/session/request to
store/session/response, and JavaScript string operations are modelled on
`List Char` so that every definition is kernel-executable.  External
cryptographic primitives (bcrypt, scrypt, TOTP) are abstracted as function
parameters: the control flow around them is what is verified.
-/

namespace Semi

/-! ## JavaScript-style string helpers -/

/-- JavaScript truthiness of an optional string field: `undefined`/missing and
the empty string are falsy, every other string is truthy. -/
def truthy : Option String → Bool
  | none => false
  | some s => s ≠ ""

/-- JavaScript `a || b` on two optional string fields: yields `a` when it is
truthy, otherwise `b`. -/
def jsOrOpt (a b : Option String) : Option String :=
  if truthy a then a else b

/-- JavaScript `s || d` defaulting of a possibly-missing string: falsy
(`undefined` or `""`) falls back to the default. -/
def jsOr (o : Option String) (d : String) : String :=
  match o with
  | none => d
  | some s => if s = "" then d else s

/-- `String.startsWith`, computed on the character list. -/
def jsStartsWith (s pre : String) : Bool :=
  pre.data.isPrefixOf s.data

/-- JavaScript `String.prototype.split(sep)` on character lists: always
returns at least one (possibly empty) group. -/
def splitChar (sep : Char) : List Char → List (List Char)
  | [] => [[]]
  | c :: cs =>
    let r := splitChar sep cs
    if c = sep then [] :: r
    else
      match r with
      | [] => [[c]]
      | g :: gs => (c :: g) :: gs

/-- JavaScript `s.split(".")` returning strings. -/
def splitOnDot (s : String) : List String :=
  (splitChar '.' s.data).map List.asString

/-- Decimal digit character. -/
def digitChar (n : Nat) : Char := Char.ofNat (48 + n)

/-- Fuel-driven decimal rendering of a natural number (the fuel is an upper
bound on the number of digits; `natToStr` supplies enough). -/
def natToStrAux : Nat → Nat → List Char
  | 0, _ => []
  | fuel + 1, n =>
    if n < 10 then [digitChar n]
    else natToStrAux fuel (n / 10) ++ [digitChar (n % 10)]

/-- Decimal rendering of a natural number, as JavaScript template-string
interpolation of a nonnegative integer produces it. -/
def natToStr (n : Nat) : String :=
  ⟨natToStrAux (n + 1) n⟩

/-- ASCII uppercase-or-digit test, i.e. the class `[A-Z0-9]` (codes 65–90
and 48–57). -/
def isUpperAlnum (c : Char) : Bool :=
  (65 ≤ c.toNat ∧ c.toNat ≤ 90) ∨ (48 ≤ c.toNat ∧ c.toNat ≤ 57)

/-- ASCII alphanumeric test (either case), i.e. the class `[A-Za-z0-9]`. -/
def isAlnumChar (c : Char) : Bool :=
  (65 ≤ c.toNat ∧ c.toNat ≤ 90) ∨ (97 ≤ c.toNat ∧ c.toNat ≤ 122) ∨
  (48 ≤ c.toNat ∧ c.toNat ≤ 57)

/-- `String.prototype.toUpperCase` restricted to ASCII (the only characters
the short-name derivation keeps afterwards): lowercase a–z (codes 97–122)
shift down by 32, everything else is unchanged. -/
def jsToUpper (c : Char) : Char :=
  if 97 ≤ c.toNat ∧ c.toNat ≤ 122 then Char.ofNat (c.toNat - 32) else c

/-! ## Data model -/

/-- A user record of the Credential Store, with the fields the authentication
and authorization logic reads (`server/auth.ts`, spec §3). -/
structure User where
  id : String
  email : String
  password : String := ""
  firstName : String := ""
  lastName : String := ""
  role : String := "team_member"
  permissionLevel : Option String := none
  companyId : Option Nat := none
  isActive : Option Bool := some true
  isEmailVerified : Bool := false
  emailVerifiedAt : Option Nat := none
  emailVerificationToken : Option String := none
  verificationTokenExpiry : Option Nat := none
  resetToken : Option String := none
  resetExpiry : Option Nat := none
  twoFactorSecret : Option String := none
  twoFactorEnabled : Bool := false
  deriving Repr, DecidableEq

/-- A company record, with the fields the registration flow reads/writes. -/
structure Company where
  id : Nat
  name : String
  shortName : String
  isContractor : Bool := false
  deriving Repr, DecidableEq

/-- A pending contractor join request (spec §3, ContractorJoinRequest). -/
structure JoinRequest where
  userId : String
  requestedCompanyId : String
  requestedPermissionLevel : String
  status : String
  deriving Repr, DecidableEq

/-- Modelled from the spec: the Credential Store (`server/storage.ts` is not
part of the sources; spec §2 treats it as an external relational store).  An
in-memory list-backed store with fresh company ids. -/
structure Store where
  users : List User := []
  companies : List Company := []
  joinRequests : List JoinRequest := []
  nextCompanyId : Nat := 1
  deriving Repr, DecidableEq

/-- Server-side session payload (spec §3, Session): the logged-in user id and
the transient pre-account email-verification state. -/
structure SessionState where
  userId : Option String := none
  emailVerified : Option String := none
  deriving Repr, DecidableEq

/-- Modelled from the spec: `storage.getUserByEmail` — lookup by exact email. -/
def getUserByEmail (s : Store) (email : String) : Option User :=
  s.users.find? (fun u => u.email = email)

/-- Modelled from the spec: `storage.getUserById` / `storage.getUser` —
lookup by id. -/
def getUserById (s : Store) (id : String) : Option User :=
  s.users.find? (fun u => u.id = id)

/-- Modelled from the spec: `storage.getCompanyByName` — exact-name match
(spec §4.3: "Requires an existing company matched by exact name"). -/
def getCompanyByName (s : Store) (name : String) : Option Company :=
  s.companies.find? (fun c => c.name = name)

/-- Modelled from the spec: `storage.getCompanyByShortName`. -/
def getCompanyByShortName (s : Store) (shortName : String) : Option Company :=
  s.companies.find? (fun c => c.shortName = shortName)

/-- Modelled from the spec: `storage.upsertUser` — insert, or replace the
record with the same id. -/
def upsertUser (s : Store) (u : User) : Store :=
  if s.users.any (fun v => v.id = u.id) then
    { s with users := s.users.map (fun v => if v.id = u.id then u else v) }
  else
    { s with users := s.users ++ [u] }

/-- Modelled from the spec: `storage.updateUser` — merge a field update into
the record with the given id (the update itself is the call site's record
update function). -/
def updateUserWith (s : Store) (id : String) (f : User → User) : Store :=
  { s with users := s.users.map (fun v => if v.id = id then f v else v) }

/-- Modelled from the spec: `storage.createUser` — insert a fresh record
(replacing any record with the same id, as the surrounding code has already
upserted that id). -/
def createUser (s : Store) (u : User) : Store :=
  upsertUser s u

/-- Modelled from the spec: `storage.createCompany` — insert a company under
a fresh id and return it. -/
def createCompany (s : Store) (name shortName : String) (isContractor : Bool) :
    Store × Company :=
  let c : Company := { id := s.nextCompanyId, name := name,
                       shortName := shortName, isContractor := isContractor }
  ({ s with companies := s.companies ++ [c], nextCompanyId := s.nextCompanyId + 1 }, c)

/-- Modelled from the spec: `storage.createContractorJoinRequest`. -/
def createJoinRequest (s : Store) (r : JoinRequest) : Store :=
  { s with joinRequests := s.joinRequests ++ [r] }

/-! ## Password hashing service (`comparePasswords`, auth.ts lines 37–65)

The two cryptographic primitives are abstracted: `bcryptCompare` stands for
`bcrypt.compare` and `scryptHash supplied salt` for the 64-byte buffer
`scryptAsync(supplied, salt, 64)`.  The body of `comparePasswords` before its
`catch` is modelled as an `Except`, a thrown exception being `.error`. -/

/-- Hex-digit test for `Buffer.from(·, "hex")`. -/
def isHexChar (c : Char) : Bool :=
  ('0' ≤ c ∧ c ≤ '9') ∨ ('a' ≤ c ∧ c ≤ 'f') ∨ ('A' ≤ c ∧ c ≤ 'F')

/-- Numeric value of a hex digit. -/
def hexVal (c : Char) : Nat :=
  if '0' ≤ c ∧ c ≤ '9' then c.toNat - 48
  else if 'a' ≤ c ∧ c ≤ 'f' then c.toNat - 87
  else c.toNat - 55

/-- `Buffer.from(hex, "hex")`: decode hex pairs, stopping at the first
character that is not a hex digit (Node truncates there). -/
def hexDecode : List Char → List Nat
  | c1 :: c2 :: rest =>
    if isHexChar c1 ∧ isHexChar c2 then
      (16 * hexVal c1 + hexVal c2) :: hexDecode rest
    else []
  | _ => []

/-- The `try` body of `comparePasswords`: bcrypt branch on the `$2b$` prefix,
otherwise the legacy `digest.salt` parse; `timingSafeEqual` throws
(`.error`) when the buffers differ in length. -/
def comparePasswordsE (bcryptCompare : String → String → Bool)
    (scryptHash : String → String → List Nat)
    (supplied stored : String) : Except String Bool :=
  if jsStartsWith stored "$2b$" then
    .ok (bcryptCompare supplied stored)
  else
    let parts := splitOnDot stored
    let hashed := parts.getD 0 ""
    let salt := parts.getD 1 ""
    if salt = "" then .ok false
    else
      let hashedBuf := hexDecode hashed.data
      let suppliedBuf := scryptHash supplied salt
      if hashedBuf.length ≠ suppliedBuf.length then
        .error "ERR_CRYPTO_TIMING_SAFE_EQUAL_LENGTH"
      else .ok (hashedBuf = suppliedBuf)

/-- `comparePasswords`: the `try`/`catch` wrapper — any thrown error is
logged and turned into `false` (fail closed). -/
def comparePasswords (bcryptCompare : String → String → Bool)
    (scryptHash : String → String → List Nat)
    (supplied stored : String) : Bool :=
  match comparePasswordsE bcryptCompare scryptHash supplied stored with
  | .ok b => b
  | .error _ => false

/-! ## Permission model (`client/src/lib/permissions.ts`) -/

/-- The fixed permission-level order of `hasPermissionLevel`
(`['viewer', 'editor', 'manager', 'owner']`). -/
def levels : List String := ["viewer", "editor", "manager", "owner"]

/-- JavaScript `Array.prototype.indexOf`: the index, or `-1` when absent. -/
def indexOfJS (xs : List String) (x : String) : Int :=
  match xs.indexOf? x with
  | some i => (i : Int)
  | none => -1

/-- `hasPermissionLevel(user, requiredLevel)` (permissions.ts lines 178–193):
admins always pass; a `team_member` compares `indexOf` positions of their
level (defaulting to `'viewer'`) and the required level; every other role
falls through to `false`. -/
def hasPermissionLevel (user : Option User) (requiredLevel : String) : Bool :=
  match user with
  | none => false
  | some u =>
    if u.role = "company_admin" ∨ u.role = "system_admin" then true
    else if u.role = "team_member" then
      let userLevel := jsOr u.permissionLevel "viewer"
      indexOfJS levels userLevel ≥ indexOfJS levels requiredLevel
    else false

/-- `canContractorEdit(user, applicationPermissions)` (permissions.ts lines
240–263). -/
def canContractorEdit (user : Option User)
    (applicationPermissions : List String) : Bool :=
  match user with
  | none => false
  | some u =>
    if ¬ jsStartsWith u.role "contractor_" then false
    else if u.role = "contractor_individual" ∨ u.role = "contractor_account_owner" ∨
            u.role = "contractor_manager" then true
    else if u.role = "contractor_team_member" ∧ u.permissionLevel = some "manager" then
      true
    else if u.role = "contractor_team_member" then
      applicationPermissions.contains "edit"
    else false

/-! ## Password policy (the registration/reset regex, auth.ts lines 178, 680)

`/^(?=.*[a-z])(?=.*[A-Z])(?=.*\d)(?=.*[!@#$%^&*(),.?":{}|<>]).{8,64}$/`:
anchored, so `.{8,64}` must cover the whole string — every character is a
non-line-terminator and the length is 8–64 — and each lookahead demands one
character of its class. -/

/-- The symbol class of the password regex. -/
def passwordSymbols : List Char :=
  ['!', '@', '#', '$', '%', '^', '&', '*', '(', ')', ',', '.', '?', '"', ':',
   Char.ofNat 123, Char.ofNat 125, '|', '<', '>']

/-- JavaScript regex line terminators, which `.` does not match. -/
def isLineTerminator (c : Char) : Bool :=
  c = Char.ofNat 10 ∨ c = Char.ofNat 13 ∨ c = Char.ofNat 0x2028 ∨ c = Char.ofNat 0x2029

/-- The password policy regex as a predicate. -/
def validPassword (p : String) : Bool :=
  8 ≤ p.data.length ∧ p.data.length ≤ 64 ∧
  p.data.all (fun c => ¬ isLineTerminator c) ∧
  p.data.any (fun c => 'a' ≤ c ∧ c ≤ 'z') ∧
  p.data.any (fun c => 'A' ≤ c ∧ c ≤ 'Z') ∧
  p.data.any (fun c => '0' ≤ c ∧ c ≤ '9') ∧
  p.data.any (fun c => passwordSymbols.contains c)

/-! ## Contractor short-name generation (auth.ts lines 411–436) -/

/-- `companyName.substring(0, 6).toUpperCase().replace(/[^A-Z0-9]/g, '')`:
truncate to the first six characters, uppercase, then strip everything that
is not an uppercase letter or digit. -/
def baseShortName (name : String) : String :=
  ⟨((name.data.take 6).map jsToUpper).filter isUpperAlnum⟩

/-- The spec's wording of the base derivation ("first 6 alphanumeric
uppercase characters of the company name"): uppercase the alphanumeric
characters of the whole name and keep the first six.  Stated only to be
compared with `baseShortName`, the code's derivation. -/
def specBaseShortName (name : String) : String :=
  ⟨((name.data.map jsToUpper).filter isUpperAlnum).take 6⟩

/-- Candidate for a given counter value: `base.substring(0,5)` plus the
counter while it is a single digit, `base.substring(0,4)` plus the counter
afterwards. -/
def nextCandidate (base : String) (counter : Nat) : String :=
  if counter ≤ 9 then ⟨base.data.take 5 ++ (natToStr counter).data⟩
  else ⟨base.data.take 4 ++ (natToStr counter).data⟩

/-- The contractor `while (counter <= 100)` collision loop: try the current
candidate, and on collision move to the candidate for the next counter;
`none` after the fuel (100 candidates) is exhausted. -/
def shortNameGo (isTaken : String → Bool) (base : String) :
    Nat → String → Nat → Option String
  | 0, _, _ => none
  | fuel + 1, candidate, counter =>
    if isTaken candidate then
      shortNameGo isTaken base fuel (nextCandidate base (counter + 1)) (counter + 1)
    else some candidate

/-- The whole contractor short-name search: starts at the base itself with
`counter = 1` and gives up (the `counter > 100` check, a 400 response) after
100 taken candidates. -/
def generateShortName (isTaken : String → Bool) (base : String) : Option String :=
  shortNameGo isTaken base 100 base 1

/-- The company-owner variant (auth.ts lines 518–537): a `do`/`while
(counter < 100)` loop that starts at counter 2 over the user-supplied short
name, only entered when the supplied name is already taken; candidates are
`base.substring(0,5)` plus the counter, and counters 2–99 are tried. -/
def ownerShortNameGo (isTaken : String → Bool) (base : String) :
    Nat → Nat → Option String
  | 0, _ => none
  | fuel + 1, counter =>
    let candidate : String := ⟨base.data.take 5 ++ (natToStr counter).data⟩
    if isTaken candidate then
      if counter + 1 < 100 then ownerShortNameGo isTaken base fuel (counter + 1)
      else none
    else some candidate

/-- Final short name for the company-owner branch: the supplied name when
free, otherwise the first free candidate among counters 2–99. -/
def ownerFinalShortName (isTaken : String → Bool) (supplied : String) : Option String :=
  if isTaken supplied then ownerShortNameGo isTaken supplied 98 2
  else some supplied

/-! ## Registration endpoint (`POST /api/auth/register`, auth.ts lines 163–599) -/

/-- The request-body fields the register handler destructures and reads.
Agreement flags model JavaScript truthiness of the submitted values. -/
structure RegisterBody where
  email : String
  password : String
  firstName : String := ""
  lastName : String := ""
  userType : Option String := none
  role : Option String := none
  companyName : Option String := none
  companyShortName : Option String := none
  businessNumber : Option String := none
  streetAddress : Option String := none
  city : Option String := none
  province : Option String := none
  country : Option String := none
  postalCode : Option String := none
  howHeardAbout : Option String := none
  agreeToPortalServices : Bool := false
  agreeToBusinessInfo : Bool := false
  agreeToContact : Bool := false
  hasCodeOfConductAgreement : Bool := false
  hasPrivacyPolicyAgreement : Bool := false
  hasTermsOfServiceAgreement : Bool := false
  hasDataSharingAgreement : Bool := false
  acceptTerms : Bool := false
  acceptBusinessInfo : Bool := false
  acceptContact : Bool := false
  codeOfConductAgreed : Bool := false
  contractorCompanyExists : Option String := none
  selectedCompanyId : Option String := none
  deriving Repr, DecidableEq

/-- The JSON response of the register handler, restricted to the fields the
spec talks about. -/
structure RegResponse where
  status : Nat
  message : String := ""
  isPending : Bool := false
  isJoinRequest : Bool := false
  requiresEmailVerification : Bool := false
  redirectTo : Option String := none
  deriving Repr, DecidableEq

/-- Store, session and response after a register request. -/
structure RegOutcome where
  store : Store
  session : SessionState
  response : RegResponse
  deriving Repr, DecidableEq

/-- The register handler.  Nondeterministic inputs are parameters: `hashPw`
is `hashPassword` (bcrypt), `freshId` the `nanoid()` user id, `freshCode`
the random 6-digit verification code, `now` the clock in milliseconds and
`emailSendOk` the result of `sendEmailVerificationEmail` on the final
(default) path. -/
def register (hashPw : String → String) (freshId freshCode : String) (now : Nat)
    (emailSendOk : Bool) (store : Store) (session : SessionState)
    (b : RegisterBody) : RegOutcome :=
  if ¬ validPassword b.password then
    ⟨store, session,
     { status := 400,
       message := "Password must be 8-64 characters with lowercase, uppercase, digit, and symbol" }⟩
  else if (getUserByEmail store b.email).isSome then
    ⟨store, session, { status := 400, message := "User with this email already exists" }⟩
  else
    let hashedPassword := hashPw b.password
    let verificationTokenExpiry := now + 10 * 60 * 1000
    let userId := freshId
    let isCompanyOwner := truthy b.companyName ∧ truthy b.companyShortName ∧ truthy b.businessNumber
    let isTeamMember := b.userType = some "team_member"
    let userRole := jsOrOpt b.role b.userType
    let assignedRole :=
      if isCompanyOwner then "company_admin"
      else if isTeamMember then "team_member"
      else if b.userType = some "contractor_account_owner" then "contractor_account_owner"
      else if b.userType = some "contractor_individual" then "contractor_individual"
      else if userRole = some "contractor_individual" ∨ b.userType = some "contractor" then
        "contractor_individual"
      else if userRole = some "contractor_account_owner" then "contractor_account_owner"
      else "team_member"
    let userData : User :=
      { id := userId, email := b.email, password := hashedPassword,
        firstName := b.firstName, lastName := b.lastName,
        emailVerificationToken := some freshCode,
        verificationTokenExpiry := some verificationTokenExpiry,
        isEmailVerified := false, role := assignedRole,
        permissionLevel := some (if assignedRole = "company_admin" then "owner" else "editor") }
    let store1 := upsertUser store userData
    let sessionVerified := session.emailVerified = some b.email
    let user1 := if sessionVerified then
        { userData with isEmailVerified := true, emailVerifiedAt := some now }
      else userData
    let store2 := if sessionVerified then
        updateUserWith store1 userId
          (fun u => { u with isEmailVerified := true, emailVerifiedAt := some now })
      else store1
    if isTeamMember then
      if ¬ truthy b.companyName then
        ⟨store2, session,
         { status := 400, message := "Company name is required for team member registration" }⟩
      else
        match getCompanyByName store2 (jsOr b.companyName "") with
        | none =>
          ⟨store2, session,
           { status := 400,
             message := "Company not found. Please verify the exact company name or contact your company administrator." }⟩
        | some existingCompany =>
          let store3 := updateUserWith store2 userId
            (fun u => { u with companyId := some existingCompany.id,
                               role := "team_member", isEmailVerified := true,
                               emailVerifiedAt := some now })
          ⟨store3, session,
           { status := 201,
             message := "Registration submitted successfully! Your request is pending approval from your company administrator. You will receive an email confirmation once approved.",
             isPending := true, requiresEmailVerification := false }⟩
    else if userRole = some "contractor_individual" ∨ userRole = some "contractor_account_owner" then
      if userRole = some "contractor_individual" ∧ b.contractorCompanyExists = some "yes" ∧
         truthy b.selectedCompanyId then
        let contractorUser : User :=
          { id := userId, email := b.email, password := hashedPassword,
            firstName := b.firstName, lastName := b.lastName,
            role := "contractor_individual", permissionLevel := some "editor",
            companyId := none, isActive := some false,
            emailVerificationToken := some freshCode,
            verificationTokenExpiry := some verificationTokenExpiry,
            isEmailVerified := false }
        let store3 := createUser store2 contractorUser
        let store4 := createJoinRequest store3
          { userId := userId, requestedCompanyId := jsOr b.selectedCompanyId "",
            requestedPermissionLevel := "editor", status := "pending" }
        ⟨store4, session,
         { status := 201,
           message := "Join request submitted successfully! Your request is pending approval from the contractor company administrator. You will receive an email confirmation once approved.",
           isPending := true, isJoinRequest := true, requiresEmailVerification := false }⟩
      else if ¬ (truthy b.companyName ∧ truthy b.streetAddress ∧ truthy b.city ∧
                 truthy b.province ∧ truthy b.country) then
        ⟨store2, session,
         { status := 400,
           message := "All business information fields are required for contractor registration" }⟩
      else
        let codeOfConductAccepted := b.hasCodeOfConductAgreement ∨ b.codeOfConductAgreed
        let termsAccepted := b.hasTermsOfServiceAgreement ∨ b.acceptTerms ∨ b.agreeToPortalServices
        let businessInfoAccepted := b.hasPrivacyPolicyAgreement ∨ b.acceptBusinessInfo ∨ b.agreeToBusinessInfo
        let contactAccepted := b.hasDataSharingAgreement ∨ b.acceptContact ∨ b.agreeToContact
        if ¬ (codeOfConductAccepted ∧ termsAccepted ∧ businessInfoAccepted ∧ contactAccepted) then
          ⟨store2, session,
           { status := 400,
             message := "You must agree to all terms and conditions to register as a contractor" }⟩
        else
          let base := baseShortName (jsOr b.companyName "")
          match generateShortName (fun s => (getCompanyByShortName store2 s).isSome) base with
          | none =>
            ⟨store2, session,
             { status := 400,
               message := "Unable to generate unique company identifier. Please contact support." }⟩
          | some contractorShortName =>
            let created := createCompany store2 (jsOr b.companyName "") contractorShortName true
            let store3 := created.1
            let contractorCompany := created.2
            let store4 := updateUserWith store3 userId
              (fun u => { u with companyId := some contractorCompany.id,
                                 role := "contractor_account_owner" })
            ⟨store4, { session with userId := some userId },
             { status := 201,
               message := "Registration successful! Welcome to your contractor dashboard.",
               requiresEmailVerification := false,
               redirectTo := some "/contractor-dashboard" }⟩
    else if isCompanyOwner then
      if ¬ user1.isEmailVerified then
        ⟨store2, session,
         { status := 400, message := "Email verification is required for company owner registration" }⟩
      else if ¬ (truthy b.companyName ∧ truthy b.companyShortName ∧ truthy b.businessNumber ∧
                 truthy b.streetAddress ∧ truthy b.city ∧ truthy b.province ∧
                 truthy b.country ∧ truthy b.postalCode ∧ truthy b.howHeardAbout) then
        ⟨store2, session,
         { status := 400, message := "All business information fields are required for company owners" }⟩
      else if ¬ (b.agreeToPortalServices ∧ b.agreeToBusinessInfo ∧ b.agreeToContact) then
        ⟨store2, session,
         { status := 400,
           message := "You must agree to all terms and conditions to register as a company owner" }⟩
      else
        match ownerFinalShortName (fun s => (getCompanyByShortName store2 s).isSome)
                (jsOr b.companyShortName "") with
        | none =>
          ⟨store2, session,
           { status := 400,
             message := "Unable to generate unique company identifier. Please contact support." }⟩
        | some finalShortName =>
          let created := createCompany store2 (jsOr b.companyName "") finalShortName false
          let store3 := created.1
          let company := created.2
          let store4 := updateUserWith store3 userId
            (fun u => { u with companyId := some company.id, role := "company_admin",
                               isEmailVerified := true, emailVerifiedAt := some now })
          ⟨store4, { session with userId := some userId },
           { status := 201, message := "Registration successful! Welcome to your dashboard.",
             requiresEmailVerification := false }⟩
    else
      if ¬ emailSendOk then
        ⟨store2, session,
         { status := 500, message := "Failed to send verification email. Please try again." }⟩
      else
        ⟨store2, session,
         { status := 201,
           message := "Registration successful! Please check your email for the verification code.",
           requiresEmailVerification := true }⟩

/-! ## Password reset flow (auth.ts lines 630–706) -/

/-- A plain status/message JSON response. -/
structure SimpleResponse where
  status : Nat
  message : String := ""
  deriving Repr, DecidableEq

/-- `POST /api/auth/request-reset`: never reveals account existence; for an
existing user stores a fresh opaque token (`nanoid(32)`, the `freshTok`
parameter) with a one-hour expiry. -/
def requestReset (store : Store) (now : Nat) (freshTok : String)
    (email : Option String) : Store × SimpleResponse :=
  if ¬ truthy email then
    (store, { status := 400, message := "Email is required" })
  else
    match getUserByEmail store (jsOr email "") with
    | none =>
      (store, { status := 200, message := "If an account exists, reset instructions have been sent" })
    | some user =>
      (updateUserWith store user.id
        (fun u => { u with resetToken := some freshTok,
                           resetExpiry := some (now + 60 * 60 * 1000) }),
       { status := 200, message := "If an account exists, reset instructions have been sent" })

/-- `POST /api/auth/reset-password`: takes only `email` and `newPassword`,
validates the password policy, rehashes and overwrites the stored hash.  It
neither reads nor clears `resetToken`/`resetExpiry`. -/
def resetPassword (hashPw : String → String) (store : Store)
    (email newPassword : String) : Store × SimpleResponse :=
  if ¬ validPassword newPassword then
    (store,
     { status := 400,
       message := "Password must be 8-64 characters with lowercase, uppercase, digit, and symbol" })
  else
    match getUserByEmail store email with
    | none => (store, { status := 404, message := "User not found" })
    | some user =>
      (updateUserWith store user.id (fun u => { u with password := hashPw newPassword }),
       { status := 200, message := "Password updated successfully" })

/-! ## Email verification code endpoint (`POST /api/auth/verify-code`,
auth.ts lines 770–833) -/

/-- Outcome of `POST /api/auth/verify-code`. -/
structure VerifyCodeOutcome where
  store : Store
  session : SessionState
  response : SimpleResponse
  deriving Repr, DecidableEq

/-- `POST /api/auth/verify-code`: missing fields, unknown user, already
verified, code mismatch and expiry are distinct 400 rejections, in that
order; success clears the token, marks the email verified and logs the user
in by setting the session user id. -/
def verifyCode (store : Store) (session : SessionState) (now : Nat)
    (email code : Option String) : VerifyCodeOutcome :=
  if ¬ truthy email ∨ ¬ truthy code then
    ⟨store, session, { status := 400, message := "Email and verification code are required" }⟩
  else
    match getUserByEmail store (jsOr email "") with
    | none => ⟨store, session, { status := 400, message := "User not found" }⟩
    | some user =>
      if user.isEmailVerified then
        ⟨store, session, { status := 400, message := "Email is already verified" }⟩
      else if user.emailVerificationToken ≠ code then
        ⟨store, session, { status := 400, message := "Invalid verification code" }⟩
      else
        match user.verificationTokenExpiry with
        | some expiry =>
          if now > expiry then
            ⟨store, session,
             { status := 400, message := "Verification code has expired. Please request a new one." }⟩
          else
            let store1 := updateUserWith store user.id
              (fun u => { u with isEmailVerified := true, emailVerifiedAt := some now,
                                 emailVerificationToken := none,
                                 verificationTokenExpiry := none })
            ⟨store1, { session with userId := some user.id },
             { status := 200,
               message := "Email verified successfully! Welcome to SEMI Program Portal." }⟩
        | none =>
          let store1 := updateUserWith store user.id
            (fun u => { u with isEmailVerified := true, emailVerifiedAt := some now,
                               emailVerificationToken := none,
                               verificationTokenExpiry := none })
          ⟨store1, { session with userId := some user.id },
           { status := 200,
             message := "Email verified successfully! Welcome to SEMI Program Portal." }⟩

/-! ## Two-factor authentication (auth.ts lines 1003–1083)

`verifyTwoFactorToken` (speakeasy TOTP check, `server/twoFactorAuth.ts`) is
abstracted as a parameter `verifyTok : token → secret → Bool`. -/

/-- Result of `POST /api/auth/2fa/setup`: refuses when 2FA is already
enabled, otherwise returns a freshly generated secret without persisting
anything. -/
inductive TfaSetupResult where
  | alreadyEnabled
  | issued (secret : String)
  deriving Repr, DecidableEq

/-- `POST /api/auth/2fa/setup` for an authenticated user; `freshSecret` is
the generated shared secret. -/
def twoFactorSetup (user : User) (freshSecret : String) : TfaSetupResult :=
  if user.twoFactorEnabled then .alreadyEnabled
  else .issued freshSecret

/-- Result of `POST /api/auth/2fa/verify`. -/
inductive TfaVerifyResult where
  | missingFields
  | invalidToken
  | success (updated : User)
  deriving Repr, DecidableEq

/-- `POST /api/auth/2fa/verify` for an authenticated user: requires a truthy
`secret` and `token` in the body, checks the token against the submitted
secret, and on success persists the secret with `twoFactorEnabled := true`.
It performs no check of the user's current `twoFactorEnabled` flag. -/
def twoFactorVerify (verifyTok : String → String → Bool) (user : User)
    (secret token : Option String) : TfaVerifyResult :=
  if ¬ truthy secret ∨ ¬ truthy token then .missingFields
  else
    let s := jsOr secret ""
    let t := jsOr token ""
    if ¬ verifyTok t s then .invalidToken
    else .success { user with twoFactorSecret := some s, twoFactorEnabled := true }

/-- Result of `POST /api/auth/2fa/disable`. -/
inductive TfaDisableResult where
  | notEnabled
  | missingToken
  | invalidToken
  | success (updated : User)
  deriving Repr, DecidableEq

/-- `POST /api/auth/2fa/disable`: requires 2FA currently enabled with a
stored secret and a valid token against that stored secret; clears both on
success. -/
def twoFactorDisable (verifyTok : String → String → Bool) (user : User)
    (token : Option String) : TfaDisableResult :=
  if ¬ user.twoFactorEnabled ∨ ¬ truthy user.twoFactorSecret then .notEnabled
  else if ¬ truthy token then .missingToken
  else if ¬ verifyTok (jsOr token "") (jsOr user.twoFactorSecret "") then .invalidToken
  else .success { user with twoFactorSecret := none, twoFactorEnabled := false }

/-! ## Authentication middleware (`requireAuth`, auth.ts lines 1087–1125) -/

/-- Result of the `requireAuth` middleware. -/
inductive AuthResult where
  | unauthenticated (message : String)
  | forbidden (message : String)
  | ok (user : User)
  deriving Repr, DecidableEq

/-- `requireAuth`: 401 when the session carries no (truthy) user id or the
store lookup finds no user; 403 when the resolved user has
`isActive === false`; otherwise the resolved user is attached and the chain
continues.  The store is re-read on every call. -/
def requireAuth (store : Store) (session : SessionState) : AuthResult :=
  if ¬ truthy session.userId then .unauthenticated "Authentication required"
  else
    match getUserById store (jsOr session.userId "") with
    | none => .unauthenticated "User not found"
    | some user =>
      if user.isActive = some false then
        .forbidden "Your account has been deactivated. Please contact support."
      else .ok user

/-- Modelled from the spec: the admin deactivation action (spec §3 user
lifecycle, "admin actions (... deactivation ...)"; the handler lives outside
the provided sources) — sets `isActive := false` on the stored record. -/
def deactivateUser (store : Store) (id : String) : Store :=
  updateUserWith store id (fun u => { u with isActive := some false })

/-! ## Spec-side comparison definitions and concrete fixtures -/

/-- The spec's wording of `hasPermissionLevel` as amended: admins always
pass, a `team_member` passes exactly when the ordinal of their level
(defaulting to viewer) in viewer < editor < manager < owner is at least the
ordinal of the required level, and every other role — including
`contractor_team_member` — fails.  Stated only to be compared with
`hasPermissionLevel`, the code's function. -/
def hasPermissionLevelSpec (user : Option User) (req : String) : Bool :=
  match user with
  | none => false
  | some u =>
    if u.role = "company_admin" ∨ u.role = "system_admin" then true
    else if u.role = "team_member" then
      match levels.indexOf? (jsOr u.permissionLevel "viewer"), levels.indexOf? req with
      | some uo, some ro => ro ≤ uo
      | _, _ => false
    else false

/-- A contractor team member holding the highest permission level. -/
def ctmOwnerUser : User :=
  { id := "u-ctm", email := "ctm@example.com",
    role := "contractor_team_member", permissionLevel := some "owner" }

/-- A company team member with editor level, for witnesses. -/
def tmEditorUser : User :=
  { id := "u-tm", email := "tm@example.com",
    role := "team_member", permissionLevel := some "editor" }

/-- A user who already completed 2FA enrollment. -/
def tfaEnabledUser : User :=
  { id := "u-2fa", email := "tfa@example.com",
    twoFactorSecret := some "OLDSECRET", twoFactorEnabled := true }

/-- Store holding one unverified user whose verification code has been
issued at time 0 (expiry 600000 ms = 10 minutes). -/
def verifyFixtureStore : Store :=
  { users := [ { id := "u-v", email := "v@example.com",
                 emailVerificationToken := some "123456",
                 verificationTokenExpiry := some 600000 } ] }

/-- Store holding one already-verified user with a still-stored code. -/
def verifiedFixtureStore : Store :=
  { users := [ { id := "u-w", email := "w@example.com", isEmailVerified := true,
                 emailVerificationToken := some "123456",
                 verificationTokenExpiry := some 600000 } ] }

/-- Store with a single user for the password-reset replay scenario. -/
def resetFixtureStore : Store :=
  { users := [ { id := "u-r", email := "alice@example.com", password := "$2b$10$orig" } ] }

/-- Reset-flow replay scenario, step 1: alice requests a reset at time 0 and
token `TOK123` is stored. -/
def resetStep1 : Store :=
  (requestReset resetFixtureStore 0 "TOK123" (some "alice@example.com")).1

/-- Step 2: alice resets her password through `POST /reset-password`. -/
def resetStep2 : Store × SimpleResponse :=
  resetPassword (fun p => "$2b$10$" ++ p) resetStep1 "alice@example.com" "Passw0rd!"

/-- Step 3: the very same reset is replayed. -/
def resetStep3 : Store × SimpleResponse :=
  resetPassword (fun p => "$2b$10$" ++ p) resetStep2.1 "alice@example.com" "Passw0rd!"

/-- Store holding the one company a team member names at registration. -/
def teamFixtureStore : Store :=
  { companies := [ { id := 7, name := "Acme Industrial", shortName := "ACMEIN" } ] }

/-- A team-member registration request naming `Acme Industrial`. -/
def teamMemberBody : RegisterBody :=
  { email := "newtm@example.com", password := "Passw0rd!",
    firstName := "Pat", lastName := "Lee",
    userType := some "team_member", companyName := some "Acme Industrial" }

/-- A contractor new-company registration request with every agreement
affirmed. -/
def contractorBody : RegisterBody :=
  { email := "con@example.com", password := "Passw0rd!",
    firstName := "Sam", lastName := "Roe",
    userType := some "contractor_account_owner",
    companyName := some "A B C D", streetAddress := some "1 Main St",
    city := some "Calgary", province := some "AB", country := some "CA",
    hasCodeOfConductAgreement := true, hasTermsOfServiceAgreement := true,
    hasPrivacyPolicyAgreement := true, hasDataSharingAgreement := true }

/-- The contractor request again, but with no agreement affirmed. -/
def contractorNoAgreementBody : RegisterBody :=
  { contractorBody with
    email := "con2@example.com",
    hasCodeOfConductAgreement := false, hasTermsOfServiceAgreement := false,
    hasPrivacyPolicyAgreement := false, hasDataSharingAgreement := false }

/-- A store in which every candidate short name for the empty base is
already taken: the base itself (empty), `"2"`–`"9"` and `"10"`–`"100"`. -/
def allTakenStore : Store :=
  { companies := ("" :: (List.range' 2 99).map natToStr).map
      (fun s => { id := 0, name := s, shortName := s }) }

/-- Contractor request whose company name has no alphanumeric character, so
the derived base short name is empty. -/
def punctuationNameBody : RegisterBody :=
  { contractorBody with email := "con3@example.com", companyName := some "!!!" }

/-! ## Store lemmas -/

theorem updateUserWith_companies (s : Store) (id : String) (f : User → User) :
    (updateUserWith s id f).companies = s.companies := rfl

theorem upsertUser_companies (s : Store) (u : User) :
    (upsertUser s u).companies = s.companies := by
  unfold upsertUser; split <;> rfl

theorem createUser_companies (s : Store) (u : User) :
    (createUser s u).companies = s.companies := upsertUser_companies s u

theorem getCompanyByName_congr {s₁ s₂ : Store} (h : s₁.companies = s₂.companies)
    (name : String) : getCompanyByName s₁ name = getCompanyByName s₂ name := by
  unfold getCompanyByName; rw [h]

theorem getCompanyByShortName_congr {s₁ s₂ : Store} (h : s₁.companies = s₂.companies)
    (sn : String) : getCompanyByShortName s₁ sn = getCompanyByShortName s₂ sn := by
  unfold getCompanyByShortName; rw [h]

theorem find?_id_map_replace (l : List User) (u : User) :
    (l.map (fun v => if v.id = u.id then u else v)).find?
        (fun v => v.id = u.id) =
      if l.any (fun v => v.id = u.id) then some u else none := by
  induction l with
  | nil => simp [List.find?]
  | cons v vs ih =>
    by_cases hv : v.id = u.id
    · simp [List.find?, hv]
    · simp only [List.map_cons, if_neg hv, List.find?, List.any_cons]
      simp only [decide_eq_false hv, Bool.false_eq_true, if_false,
        Bool.false_or]
      exact ih

theorem find?_id_append (l : List User) (u : User)
    (h : l.any (fun v => v.id = u.id) = false) :
    (l ++ [u]).find? (fun v => v.id = u.id) = some u := by
  induction l with
  | nil => simp [List.find?]
  | cons v vs ih =>
    simp only [List.any_cons, Bool.or_eq_false_iff] at h
    simp only [List.cons_append, List.find?, h.1, Bool.false_eq_true, if_false]
    exact ih h.2

theorem getUserById_upsert (s : Store) (u : User) :
    getUserById (upsertUser s u) u.id = some u := by
  unfold getUserById upsertUser
  by_cases h : s.users.any (fun v => v.id = u.id) = true
  · rw [if_pos h]
    show (s.users.map (fun v => if v.id = u.id then u else v)).find?
        (fun v => v.id = u.id) = some u
    rw [find?_id_map_replace, if_pos h]
  · rw [if_neg h]
    show (s.users ++ [u]).find? (fun v => v.id = u.id) = some u
    exact find?_id_append s.users u (by simpa using h)

theorem find?_id_map_update (l : List User) (id : String) (f : User → User)
    (hf : ∀ u, (f u).id = u.id) :
    (l.map (fun v => if v.id = id then f v else v)).find? (fun v => v.id = id) =
      (l.find? (fun v => v.id = id)).map f := by
  induction l with
  | nil => simp [List.find?]
  | cons v vs ih =>
    by_cases hv : v.id = id
    · simp [List.find?, hv, hf]
    · simp only [List.map_cons, if_neg hv, List.find?]
      simp only [decide_eq_false hv, Bool.false_eq_true, if_false]
      exact ih

theorem getUserById_updateUserWith (s : Store) (id : String) (f : User → User)
    (hf : ∀ u, (f u).id = u.id) :
    getUserById (updateUserWith s id f) id = (getUserById s id).map f :=
  find?_id_map_update s.users id f hf

theorem getCompanyByName_sessionStore (P : Prop) [Decidable P] (s : Store) (u : User)
    (i : String) (f : User → User) (n : String) :
    getCompanyByName (if P then updateUserWith (upsertUser s u) i f else upsertUser s u) n =
      getCompanyByName s n := by
  refine getCompanyByName_congr ?_ n
  split <;> simp [updateUserWith_companies, upsertUser_companies]

theorem getCompanyByShortName_sessionStore (P : Prop) [Decidable P] (s : Store) (u : User)
    (i : String) (f : User → User) (n : String) :
    getCompanyByShortName (if P then updateUserWith (upsertUser s u) i f else upsertUser s u) n =
      getCompanyByShortName s n := by
  refine getCompanyByShortName_congr ?_ n
  split <;> simp [updateUserWith_companies, upsertUser_companies]

theorem sessionStore_companies (P : Prop) [Decidable P] (s : Store) (u : User)
    (i : String) (f : User → User) :
    (if P then updateUserWith (upsertUser s u) i f else upsertUser s u).companies =
      s.companies := by
  split <;> simp [updateUserWith_companies, upsertUser_companies]

theorem getUserById_sessionStoreV (P : Prop) [Decidable P] (s : Store) (u : User) (i : String)
    (nowv : Nat) (hu : u.id = i) :
    getUserById (if P then updateUserWith (upsertUser s u) i
        (fun v => { v with isEmailVerified := true, emailVerifiedAt := some nowv })
      else upsertUser s u) i =
      some (if P then { u with isEmailVerified := true, emailVerifiedAt := some nowv } else u) := by
  subst hu
  split
  · rw [getUserById_updateUserWith (upsertUser s u) u.id
        (fun v => { v with isEmailVerified := true, emailVerifiedAt := some nowv })
        (fun _ => rfl), getUserById_upsert]
    rfl
  · exact getUserById_upsert s u

theorem getUserById_teamUpdate (s : Store) (i : String) (cid : Nat) (nowv : Nat) :
    getUserById (updateUserWith s i
        (fun u => { u with companyId := some cid, role := "team_member",
                           isEmailVerified := true, emailVerifiedAt := some nowv })) i =
      (getUserById s i).map
        (fun u => { u with companyId := some cid, role := "team_member",
                           isEmailVerified := true, emailVerifiedAt := some nowv }) :=
  getUserById_updateUserWith s i _ (fun _ => rfl)

/-! ## Short-name loop lemmas -/

theorem shortNameGo_free (isTaken : String → Bool) (base : String)
    (fuel counter : Nat) (cand : String) (h : isTaken cand = false) :
    shortNameGo isTaken base (fuel + 1) cand counter = some cand := by
  unfold shortNameGo
  rw [h]
  simp

theorem shortNameGo_all_taken (base : String) :
    ∀ fuel cand counter, shortNameGo (fun _ => true) base fuel cand counter = none := by
  intro fuel
  induction fuel with
  | zero => intro cand counter; rfl
  | succ n ih =>
    intro cand counter
    unfold shortNameGo
    simp only [if_true]
    exact ih _ _

theorem shortNameGo_sound (isTaken : String → Bool) (base : String) :
    ∀ fuel cand counter sn, shortNameGo isTaken base fuel cand counter = some sn →
      isTaken sn = false := by
  intro fuel
  induction fuel with
  | zero => intro cand counter sn h; cases h
  | succ n ih =>
    intro cand counter sn h
    unfold shortNameGo at h
    by_cases hc : isTaken cand = true
    · rw [hc] at h
      simp only [if_true] at h
      exact ih _ _ _ h
    · rw [Bool.not_eq_true] at hc
      rw [hc] at h
      simp only [Bool.false_eq_true, if_false, Option.some.injEq] at h
      rw [← h]
      exact hc

theorem isUpperAlnum_jsToUpper_fixed (c : Char) (h : isUpperAlnum c = true) :
    jsToUpper c = c := by
  unfold isUpperAlnum at h
  unfold jsToUpper
  rw [if_neg]
  simp only [decide_eq_true_eq, Bool.or_eq_true] at h
  rcases h with ⟨h1, h2⟩ | ⟨h1, h2⟩ <;> omega

theorem baseShortName_agrees (name : String)
    (h : (name.data.take 6).all isUpperAlnum = true) :
    baseShortName name = specBaseShortName name := by
  unfold baseShortName specBaseShortName
  rw [List.all_eq_true] at h
  have hmap : (name.data.take 6).map jsToUpper = name.data.take 6 :=
    (List.map_congr_left (fun c hc => isUpperAlnum_jsToUpper_fixed c (h c hc))).trans
      (List.map_id _)
  have hfilter : (name.data.take 6).filter isUpperAlnum = name.data.take 6 :=
    List.filter_eq_self.mpr h
  congr 1
  conv_rhs => rw [← List.take_append_drop 6 name.data]
  rw [List.map_append, List.filter_append, hmap, hfilter]
  rw [List.take_append_eq_append_take, List.take_take]
  simp only [Nat.min_self, List.length_take]
  by_cases h6 : 6 ≤ name.data.length
  · rw [Nat.min_eq_left h6]
    simp
  · rw [List.drop_eq_nil_of_le (by omega)]
    simp

/-! ## Claim theorems -/

/-- C1: the claim requires the single-use reset-token invariant — a
successful `POST /reset-password` consumes the token issued by
`POST /request-reset`.  The code violates it: `resetPassword` reads only
`email` and `newPassword`, and it neither checks nor clears
`resetToken`/`resetExpiry` on any user (first conjunct, for every store).
Concretely (remaining conjuncts): after `requestReset` issues token
`TOK123` for alice, a successful reset leaves `TOK123` in place and an
identical second reset succeeds as well — the reset link is replayable. -/
theorem resetPassword_preserves_reset_token :
    (∀ (hashPw : String → String) (store : Store) (email pw : String),
      ((resetPassword hashPw store email pw).1).users.map
          (fun u => (u.id, u.resetToken, u.resetExpiry)) =
        store.users.map (fun u => (u.id, u.resetToken, u.resetExpiry))) ∧
    ((getUserById resetStep1 "u-r").map User.resetToken = some (some "TOK123")) ∧
    resetStep2.2.status = 200 ∧
    ((getUserById resetStep2.1 "u-r").map User.resetToken = some (some "TOK123")) ∧
    resetStep3.2.status = 200 := by
  refine ⟨?_, by decide, by decide, by decide, by decide⟩
  intro hashPw store email pw
  unfold resetPassword
  split
  · rfl
  · cases h : getUserByEmail store email with
    | none => simp [h]
    | some user =>
      simp only [h]
      show ((updateUserWith store user.id _).users).map _ = _
      unfold updateUserWith
      rw [List.map_map]
      apply List.map_congr_left
      intro v _
      by_cases hv : v.id = user.id <;> simp [hv]

/-- C2: for every supplied password and every stored value that is not
bcrypt-prefixed and whose legacy parse yields no (truthy) salt component —
no dot separator, or an empty part after the first dot — `comparePasswords`
returns `false` without throwing: the `try` body itself already evaluates to
`Except.ok false` before any fallible operation runs. -/
theorem comparePasswords_malformed_fails_closed
    (bc : String → String → Bool) (sh : String → String → List Nat)
    (supplied stored : String)
    (h1 : jsStartsWith stored "$2b$" = false)
    (h2 : (splitOnDot stored).getD 1 "" = "") :
    comparePasswordsE bc sh supplied stored = Except.ok false ∧
    comparePasswords bc sh supplied stored = false := by
  have hE : comparePasswordsE bc sh supplied stored = Except.ok false := by
    unfold comparePasswordsE
    simp only [h1, Bool.false_eq_true, if_false, h2, if_pos]
  exact ⟨hE, by unfold comparePasswords; rw [hE]⟩

/-- Witness for C2 at a concrete malformed stored value with no dot. -/
theorem comparePasswords_malformed_fails_closed_witness :
    comparePasswordsE (fun _ _ => true) (fun _ _ => []) "pw" "nodothere" = Except.ok false ∧
    comparePasswords (fun _ _ => true) (fun _ _ => []) "pw" "nodothere" = false :=
  comparePasswords_malformed_fails_closed _ _ _ _ (by decide) (by decide)

/-- C3 counterexample: the claim asserts the ordinal comparison also governs
`contractor_team_member`, so a contractor team member with level `owner`
(ordinal 3 ≥ ordinal 0 of `viewer`) would pass a `viewer` check; the code
returns `false` for that user — only the literal role `team_member` reaches
the ordinal comparison. -/
theorem hasPermissionLevel_contractor_counterexample :
    hasPermissionLevel (some ctmOwnerUser) "viewer" = false ∧
    ctmOwnerUser.role = "contractor_team_member" ∧
    indexOfJS levels "owner" ≥ indexOfJS levels "viewer" := by
  refine ⟨by decide, by decide, by decide⟩

/-- C3 amended: for every required level that is one of the four known
levels, `hasPermissionLevel` coincides with the spec-style function —
company_admin/system_admin always pass; role `team_member` (and only it)
compares the ordinal of its level, defaulting to viewer, against the
required level in viewer < editor < manager < owner; every other role,
including contractor_team_member, fails. -/
theorem hasPermissionLevel_ordinal_amended (u : Option User) (req : String)
    (hreq : (levels.indexOf? req).isSome = true) :
    hasPermissionLevel u req = hasPermissionLevelSpec u req := by
  cases u with
  | none => rfl
  | some v =>
    unfold hasPermissionLevel hasPermissionLevelSpec
    by_cases hadm : v.role = "company_admin" ∨ v.role = "system_admin"
    · simp [hadm]
    · simp only [if_neg hadm]
      by_cases htm : v.role = "team_member"
      · simp only [if_pos htm]
        rcases h2 : levels.indexOf? req with _ | ro
        · rw [h2] at hreq; cases hreq
        · rcases h1 : levels.indexOf? (jsOr v.permissionLevel "viewer") with _ | uo
          · unfold indexOfJS
            rw [h1, h2]
            simp only [ge_iff_le, decide_eq_false_iff_not, not_le]
            omega
          · unfold indexOfJS
            rw [h1, h2]
            simp only [ge_iff_le, decide_eq_decide]
            omega
      · simp [htm]

/-- Witness for C3 at a concrete team member and required level. -/
theorem hasPermissionLevel_ordinal_amended_witness :
    hasPermissionLevel (some tmEditorUser) "editor" =
      hasPermissionLevelSpec (some tmEditorUser) "editor" :=
  hasPermissionLevel_ordinal_amended _ _ (by decide)

/-- C4 counterexample: the claim asserts `POST /2fa/verify` rejects when
two-factor authentication is already enabled; the code performs no such
check — for a user with `twoFactorEnabled = true` and a valid token it
succeeds and silently overwrites the stored secret. -/
theorem twoFactorVerify_ignores_enabled_counterexample :
    tfaEnabledUser.twoFactorEnabled = true ∧
    twoFactorVerify (fun _ _ => true) tfaEnabledUser (some "NEWSECRET") (some "000000") =
      .success { tfaEnabledUser with twoFactorSecret := some "NEWSECRET" } := by
  refine ⟨by decide, by decide⟩

/-- C4 amended: `POST /2fa/verify` persists the submitted secret with
`twoFactorEnabled = true` exactly when both fields are present and the
time-based token validates against the submitted secret; it rejects a
missing field or an invalid token.  The already-enabled rejection is
enforced by `POST /2fa/setup` (which refuses to issue a new secret), not by
the verify endpoint. -/
theorem twoFactorVerify_amended (verifyTok : String → String → Bool)
    (u : User) (s t fs : String) (hs : s ≠ "") (ht : t ≠ "") :
    (verifyTok t s = true →
      twoFactorVerify verifyTok u (some s) (some t) =
        .success { u with twoFactorSecret := some s, twoFactorEnabled := true }) ∧
    (verifyTok t s = false →
      twoFactorVerify verifyTok u (some s) (some t) = .invalidToken) ∧
    (twoFactorVerify verifyTok u none (some t) = .missingFields) ∧
    (u.twoFactorEnabled = true → twoFactorSetup u fs = .alreadyEnabled) ∧
    (u.twoFactorEnabled = false → twoFactorSetup u fs = .issued fs) := by
  refine ⟨?_, ?_, ?_, ?_, ?_⟩
  · intro hv
    unfold twoFactorVerify
    simp [truthy, hs, ht, jsOr, hv]
  · intro hv
    unfold twoFactorVerify
    simp [truthy, hs, ht, jsOr, hv]
  · unfold twoFactorVerify
    simp [truthy]
  · intro he; unfold twoFactorSetup; simp [he]
  · intro he; unfold twoFactorSetup; simp [he]

/-- Witness for C4 at a concrete user and validator. -/
theorem twoFactorVerify_amended_witness :
    twoFactorVerify (fun _ _ => true) tfaEnabledUser (some "S") (some "T") =
      .success { tfaEnabledUser with twoFactorSecret := some "S", twoFactorEnabled := true } :=
  (twoFactorVerify_amended (fun _ _ => true) tfaEnabledUser "S" "T" "F"
    (by decide) (by decide)).1 rfl

/-- C5: a contractor_team_member at permission level viewer cannot edit an
application whose assignment list is only `view` but can when the list also
grants `edit`; a contractor_manager can edit regardless of the
application-permission list. -/
theorem canContractorEdit_spec (u : User) (perms : List String) :
    (u.role = "contractor_team_member" → u.permissionLevel = some "viewer" →
      canContractorEdit (some u) ["view"] = false ∧
      canContractorEdit (some u) ["view", "edit"] = true) ∧
    (u.role = "contractor_manager" → canContractorEdit (some u) perms = true) := by
  constructor
  · intro h1 h2
    simp only [canContractorEdit]
    rw [h1, h2]
    exact (by decide)
  · intro h
    simp only [canContractorEdit]
    rw [h]
    simp [jsStartsWith]

/-- Witness for C5 at a concrete viewer-level contractor team member. -/
theorem canContractorEdit_spec_witness :
    canContractorEdit (some { ctmOwnerUser with permissionLevel := some "viewer" })
        ["view"] = false ∧
    canContractorEdit (some { ctmOwnerUser with permissionLevel := some "viewer" })
        ["view", "edit"] = true :=
  (canContractorEdit_spec { ctmOwnerUser with permissionLevel := some "viewer" } []).1
    rfl rfl

/-- C6: a registration signaled as team_member that passes the password and
duplicate-email checks and names an existing company (exact-name match)
yields a 201 response with `isPending = true`, leaves the session untouched
(no login), and persists a user with that company id, role team_member and
`isEmailVerified = true`; naming a nonexistent company is rejected with
400. -/
theorem register_team_member_spec (hashPw : String → String)
    (fid fcode : String) (now : Nat) (eOk : Bool)
    (store : Store) (session : SessionState) (b : RegisterBody) (cname : String)
    (h1 : validPassword b.password = true)
    (h2 : getUserByEmail store b.email = none)
    (hT : b.userType = some "team_member")
    (hcn : b.companyName = some cname)
    (hcne : cname ≠ "") :
    (∀ comp, getCompanyByName store cname = some comp →
      (register hashPw fid fcode now eOk store session b).response.status = 201 ∧
      (register hashPw fid fcode now eOk store session b).response.isPending = true ∧
      (register hashPw fid fcode now eOk store session b).session = session ∧
      ∃ u, getUserById (register hashPw fid fcode now eOk store session b).store fid =
          some u ∧
        u.companyId = some comp.id ∧ u.role = "team_member" ∧
        u.isEmailVerified = true ∧ u.email = b.email) ∧
    (getCompanyByName store cname = none →
      (register hashPw fid fcode now eOk store session b).response.status = 400) := by
  constructor
  · intro comp hfound
    unfold register
    rw [if_neg (by simp [h1])]
    rw [h2]
    simp only [Option.isSome_none, Bool.false_eq_true, if_false]
    simp [hT, hcn, hcne, truthy, jsOr, jsOrOpt, getCompanyByName_sessionStore, hfound]
    rw [getUserById_teamUpdate]
    rw [getUserById_sessionStoreV _ _ _ _ _ rfl]
    refine ⟨_, rfl, rfl, rfl, rfl, ?_⟩
    split <;> rfl
  · intro hnone
    unfold register
    rw [if_neg (by simp [h1])]
    rw [h2]
    simp only [Option.isSome_none, Bool.false_eq_true, if_false]
    simp [hT, hcn, hcne, truthy, jsOr, jsOrOpt, getCompanyByName_sessionStore, hnone]

/-- Witness for C6: the concrete team-member registration against the
fixture company, and the same request against an empty store. -/
theorem register_team_member_spec_witness :
    ((register (fun p => p) "uid-w6" "654321" 0 true teamFixtureStore {}
        teamMemberBody).response.status = 201 ∧
      (register (fun p => p) "uid-w6" "654321" 0 true teamFixtureStore {}
        teamMemberBody).response.isPending = true ∧
      (register (fun p => p) "uid-w6" "654321" 0 true teamFixtureStore {}
        teamMemberBody).session = {} ∧
      ∃ u, getUserById (register (fun p => p) "uid-w6" "654321" 0 true teamFixtureStore {}
            teamMemberBody).store "uid-w6" = some u ∧
        u.companyId = some (7 : Nat) ∧ u.role = "team_member" ∧
        u.isEmailVerified = true ∧ u.email = teamMemberBody.email) ∧
    (register (fun p => p) "uid-w6" "654321" 0 true {} {}
        teamMemberBody).response.status = 400 := by
  constructor
  · exact (register_team_member_spec (fun p => p) "uid-w6" "654321" 0 true
      teamFixtureStore {} teamMemberBody "Acme Industrial"
      (by decide) (by decide) rfl rfl (by decide)).1
      { id := 7, name := "Acme Industrial", shortName := "ACMEIN" } (by decide)
  · exact (register_team_member_spec (fun p => p) "uid-w6" "654321" 0 true
      {} {} teamMemberBody "Acme Industrial"
      (by decide) (by decide) rfl rfl (by decide)).2 (by decide)

/-- C7 counterexample: the claim derives the base as the first 6
alphanumeric uppercase characters of the company name, which for
`A B C D` is `ABCD`; the code instead truncates to the first 6 characters
before stripping non-alphanumerics, yielding `ABC` — and a contractor
registration with that company name persists a company whose short name is
`ABC`, not `ABCD`, even with no collision. -/
theorem baseShortName_counterexample :
    baseShortName "A B C D" = "ABC" ∧
    specBaseShortName "A B C D" = "ABCD" ∧
    (register (fun p => p) "uid-w7" "111111" 0 true {} {}
        contractorBody).store.companies.map Company.shortName = ["ABC"] := by
  refine ⟨by decide, by decide, by decide⟩

/-- C7 amended: contractor new-company registration derives the short-name
base as the uppercase alphanumeric characters among the first 6 characters
of the supplied company name (agreeing with the first-6-alphanumerics
reading when those first 6 characters are already uppercase alphanumerics);
a free base is used as-is, on collision the next candidate appends the
incremented counter to the truncated base, any returned name is free, 100
exhausted candidates yield `none`, and in that case the endpoint answers
400 with an explicit error instead of looping; on success the generated
name is the persisted company's short name. -/
theorem shortName_generation_amended :
    (∀ name, (name.data.take 6).all isUpperAlnum = true →
      baseShortName name = specBaseShortName name) ∧
    (∀ (isTaken : String → Bool) (base : String), isTaken base = false →
      generateShortName isTaken base = some base) ∧
    (∀ (isTaken : String → Bool) (base : String), isTaken base = true →
      isTaken ⟨base.data.take 5 ++ ['2']⟩ = false →
      generateShortName isTaken base = some ⟨base.data.take 5 ++ ['2']⟩) ∧
    (∀ (isTaken : String → Bool) (base sn : String),
      generateShortName isTaken base = some sn → isTaken sn = false) ∧
    (∀ base, generateShortName (fun _ => true) base = none) ∧
    (∀ (hashPw : String → String) (fid fcode : String) (now : Nat) (eOk : Bool)
      (store : Store) (session : SessionState) (b : RegisterBody)
      (cname sa ci pr co : String),
      validPassword b.password = true →
      getUserByEmail store b.email = none →
      b.role = none →
      b.userType = some "contractor_account_owner" →
      b.companyName = some cname → cname ≠ "" →
      b.streetAddress = some sa → sa ≠ "" →
      b.city = some ci → ci ≠ "" →
      b.province = some pr → pr ≠ "" →
      b.country = some co → co ≠ "" →
      b.hasCodeOfConductAgreement = true →
      b.hasTermsOfServiceAgreement = true →
      b.hasPrivacyPolicyAgreement = true →
      b.hasDataSharingAgreement = true →
      (generateShortName (fun s => (getCompanyByShortName store s).isSome)
          (baseShortName cname) = none →
        (register hashPw fid fcode now eOk store session b).response.status = 400 ∧
        (register hashPw fid fcode now eOk store session b).response.message =
          "Unable to generate unique company identifier. Please contact support.") ∧
      (∀ sn, generateShortName (fun s => (getCompanyByShortName store s).isSome)
          (baseShortName cname) = some sn →
        (register hashPw fid fcode now eOk store session b).response.status = 201 ∧
        (register hashPw fid fcode now eOk store session b).store.companies.map
            Company.shortName =
          store.companies.map Company.shortName ++ [sn])) := by
  refine ⟨baseShortName_agrees, ?_, ?_, ?_, ?_, ?_⟩
  · intro isTaken base h
    show shortNameGo isTaken base (99 + 1) base 1 = some base
    exact shortNameGo_free isTaken base 99 1 base h
  · intro isTaken base h1 h2
    show shortNameGo isTaken base (99 + 1) base 1 = _
    unfold shortNameGo
    rw [h1]
    simp only [if_true]
    show shortNameGo isTaken base (98 + 1) (nextCandidate base 2) 2 = _
    have hc : nextCandidate base 2 = ⟨base.data.take 5 ++ ['2']⟩ := rfl
    rw [hc]
    exact shortNameGo_free isTaken base 98 2 _ h2
  · intro isTaken base sn h
    exact shortNameGo_sound isTaken base 100 base 1 sn h
  · intro base
    exact shortNameGo_all_taken base 100 base 1
  · intro hashPw fid fcode now eOk store session b cname sa ci pr co
      h1 h2 hrole hT hcn hcne hsa hsane hci hcine hpr hprne hco hcone ha1 ha2 ha3 ha4
    unfold register
    rw [if_neg (by simp [h1])]
    rw [h2]
    simp only [Option.isSome_none, Bool.false_eq_true, if_false]
    simp [hT, hrole, hcn, hcne, truthy, jsOr, jsOrOpt, hsa, hsane, hci, hcine,
      hpr, hprne, hco, hcone, ha1, ha2, ha3, ha4, getCompanyByShortName_sessionStore]
    constructor
    · intro hgen
      rw [hgen]
      simp
    · intro sn hgen
      rw [hgen]
      simp [createCompany, updateUserWith_companies, sessionStore_companies]

/-- Witness for C7: a fresh base is kept as-is; with every candidate taken
the search gives up; and the registration against a store holding all 100
candidates for the empty base answers 400. -/
theorem shortName_generation_amended_witness :
    generateShortName (fun _ => false) "ABCDEF" = some "ABCDEF" ∧
    generateShortName (fun _ => true) "ABCDEF" = none ∧
    ((register (fun p => p) "uid-w7b" "222222" 0 true allTakenStore {}
        punctuationNameBody).response.status = 400 ∧
      (register (fun p => p) "uid-w7b" "222222" 0 true allTakenStore {}
        punctuationNameBody).response.message =
        "Unable to generate unique company identifier. Please contact support.") := by
  refine ⟨shortName_generation_amended.2.1 _ _ rfl,
    shortName_generation_amended.2.2.2.2.1 "ABCDEF", ?_⟩
  exact shortName_generation_amended.2.2.2.2.2 (fun p => p) "uid-w7b" "222222" 0 true
    allTakenStore {} punctuationNameBody "!!!" "1 Main St" "Calgary" "AB" "CA"
    (by decide) (by decide) rfl rfl rfl (by decide) rfl (by decide) rfl (by decide)
    rfl (by decide) rfl (by decide) rfl rfl rfl rfl
    |>.1 (by decide)

/-- C8: `requireAuth` answers 401 when the session carries no user id or the
lookup finds none, 403 when the resolved user has `isActive = false`, and
otherwise passes the resolved user on; since the store is re-read on every
request, deactivating a user makes the very next authenticated request with
the still-valid session answer 403. -/
theorem requireAuth_spec (store : Store) (session : SessionState)
    (uid : String) (u : User) :
    (¬ truthy session.userId = true →
      requireAuth store session = .unauthenticated "Authentication required") ∧
    (session.userId = some uid → uid ≠ "" → getUserById store uid = none →
      requireAuth store session = .unauthenticated "User not found") ∧
    (session.userId = some uid → uid ≠ "" → getUserById store uid = some u →
      u.isActive = some false →
      requireAuth store session =
        .forbidden "Your account has been deactivated. Please contact support.") ∧
    (session.userId = some uid → uid ≠ "" → getUserById store uid = some u →
      u.isActive ≠ some false → requireAuth store session = .ok u) ∧
    (session.userId = some uid → uid ≠ "" → getUserById store uid = some u →
      requireAuth (deactivateUser store uid) session =
        .forbidden "Your account has been deactivated. Please contact support.") := by
  have hcompanion : ∀ (st : Store), session.userId = some uid → uid ≠ "" →
      requireAuth st session =
        (match getUserById st uid with
         | none => .unauthenticated "User not found"
         | some user =>
           if user.isActive = some false then
             .forbidden "Your account has been deactivated. Please contact support."
           else .ok user) := by
    intro st hsid huid
    unfold requireAuth
    rw [hsid]
    simp [truthy, huid, jsOr]
  refine ⟨?_, ?_, ?_, ?_, ?_⟩
  · intro h
    unfold requireAuth
    rw [if_pos h]
  · intro hsid huid hnone
    rw [hcompanion store hsid huid, hnone]
  · intro hsid huid hfound hact
    rw [hcompanion store hsid huid, hfound]
    simp [hact]
  · intro hsid huid hfound hact
    rw [hcompanion store hsid huid, hfound]
    simp [hact]
  · intro hsid huid hfound
    rw [hcompanion (deactivateUser store uid) hsid huid]
    unfold deactivateUser
    rw [getUserById_updateUserWith store uid
      (fun v => { v with isActive := some false }) (fun _ => rfl), hfound]
    simp

/-- Witness for C8: an empty session is 401, and deactivating the fixture
team member flips their next request to 403. -/
theorem requireAuth_spec_witness :
    requireAuth { users := [tmEditorUser] } {} =
      .unauthenticated "Authentication required" ∧
    requireAuth (deactivateUser { users := [tmEditorUser] } "u-tm")
        { userId := some "u-tm" } =
      .forbidden "Your account has been deactivated. Please contact support." :=
  ⟨(requireAuth_spec { users := [tmEditorUser] } {} "" tmEditorUser).1 (by decide),
   (requireAuth_spec { users := [tmEditorUser] } { userId := some "u-tm" } "u-tm"
      tmEditorUser).2.2.2.2 rfl (by decide) (by decide)⟩

/-- C9: `POST /verify-code` rejects a numerically correct code whose stored
expiry timestamp has passed with the dedicated expiry message, and rejects
any submission for an already-verified account with the distinct message
"Email is already verified" — before the code is ever compared.  The two
rejections carry different messages, so an already-verified resubmission is
never reported as an invalid code. -/
theorem verifyCode_rejections_spec (store : Store) (session : SessionState)
    (now t : Nat) (email code : String) (u : User)
    (hemail : email ≠ "") (hcode : code ≠ "")
    (hfound : getUserByEmail store email = some u) :
    (u.isEmailVerified = false → u.emailVerificationToken = some code →
      u.verificationTokenExpiry = some t → t < now →
      (verifyCode store session now (some email) (some code)).response =
        { status := 400,
          message := "Verification code has expired. Please request a new one." }) ∧
    (u.isEmailVerified = true →
      (verifyCode store session now (some email) (some code)).response =
        { status := 400, message := "Email is already verified" }) := by
  have hj : jsOr (some email) "" = email := by simp [jsOr, hemail]
  constructor
  · intro hver htok hexp hlt
    unfold verifyCode
    rw [if_neg (by simp [truthy, hemail, hcode])]
    rw [hj, hfound]
    simp only [hver, Bool.false_eq_true, if_false]
    rw [if_neg (by simp [htok])]
    rw [hexp]
    simp [hlt]
  · intro hver
    unfold verifyCode
    rw [if_neg (by simp [truthy, hemail, hcode])]
    rw [hj, hfound]
    simp only [hver, if_true]

/-- Witness for C9: the fixture code expires at 600000 ms and is submitted,
numerically correct, at 700000 ms; and the verified fixture account is told
it is already verified, not that the code is invalid. -/
theorem verifyCode_rejections_spec_witness :
    (verifyCode verifyFixtureStore {} 700000 (some "v@example.com")
        (some "123456")).response =
      { status := 400,
        message := "Verification code has expired. Please request a new one." } ∧
    (verifyCode verifiedFixtureStore {} 0 (some "w@example.com")
        (some "123456")).response =
      { status := 400, message := "Email is already verified" } :=
  ⟨(verifyCode_rejections_spec verifyFixtureStore {} 700000 600000
      "v@example.com" "123456"
      { id := "u-v", email := "v@example.com",
        emailVerificationToken := some "123456",
        verificationTokenExpiry := some 600000 }
      (by decide) (by decide) (by decide)).1 rfl rfl rfl (by decide),
   (verifyCode_rejections_spec verifiedFixtureStore {} 0 0
      "w@example.com" "123456"
      { id := "u-w", email := "w@example.com", isEmailVerified := true,
        emailVerificationToken := some "123456",
        verificationTokenExpiry := some 600000 }
      (by decide) (by decide) (by decide)).2 rfl⟩

/-- C10: registration is not atomic on branch-specific validation failure —
when the password policy and duplicate-email checks pass but the team-member
branch finds no company by the given name, or the contractor branch finds
no agreement affirmed, the endpoint answers 400 while the user record
upserted earlier in the same request remains in the store. -/
theorem register_not_atomic_on_validation_failure
    (hashPw : String → String) (fid fcode : String) (now : Nat) (eOk : Bool)
    (store : Store) (session : SessionState) (b : RegisterBody)
    (cname sa ci pr co : String) :
    (validPassword b.password = true → getUserByEmail store b.email = none →
      b.userType = some "team_member" →
      b.companyName = some cname → cname ≠ "" →
      getCompanyByName store cname = none →
      (register hashPw fid fcode now eOk store session b).response.status = 400 ∧
      ∃ u, getUserById (register hashPw fid fcode now eOk store session b).store fid =
          some u ∧ u.email = b.email) ∧
    (validPassword b.password = true → getUserByEmail store b.email = none →
      b.role = none → b.userType = some "contractor_account_owner" →
      b.companyName = some cname → cname ≠ "" →
      b.streetAddress = some sa → sa ≠ "" →
      b.city = some ci → ci ≠ "" →
      b.province = some pr → pr ≠ "" →
      b.country = some co → co ≠ "" →
      b.hasCodeOfConductAgreement = false → b.codeOfConductAgreed = false →
      (register hashPw fid fcode now eOk store session b).response.status = 400 ∧
      (register hashPw fid fcode now eOk store session b).response.message =
        "You must agree to all terms and conditions to register as a contractor" ∧
      ∃ u, getUserById (register hashPw fid fcode now eOk store session b).store fid =
          some u ∧ u.email = b.email) := by
  constructor
  · intro h1 h2 hT hcn hcne hnone
    unfold register
    rw [if_neg (by simp [h1])]
    rw [h2]
    simp only [Option.isSome_none, Bool.false_eq_true, if_false]
    simp [hT, hcn, hcne, truthy, jsOr, jsOrOpt, getCompanyByName_sessionStore, hnone]
    rw [getUserById_sessionStoreV _ _ _ _ _ rfl]
    refine ⟨_, rfl, ?_⟩
    split <;> rfl
  · intro h1 h2 hrole hT hcn hcne hsa hsane hci hcine hpr hprne hco hcone ha1 ha2
    unfold register
    rw [if_neg (by simp [h1])]
    rw [h2]
    simp only [Option.isSome_none, Bool.false_eq_true, if_false]
    simp [hT, hrole, hcn, hcne, truthy, jsOr, jsOrOpt, hsa, hsane, hci, hcine,
      hpr, hprne, hco, hcone, ha1, ha2]
    rw [getUserById_sessionStoreV _ _ _ _ _ rfl]
    refine ⟨_, rfl, ?_⟩
    split <;> rfl

/-- Witness for C10: both failing registrations against an empty store
answer 400 yet leave the user record behind. -/
theorem register_not_atomic_on_validation_failure_witness :
    ((register (fun p => p) "uid-wa" "333333" 0 true {} {}
        teamMemberBody).response.status = 400 ∧
      ∃ u, getUserById (register (fun p => p) "uid-wa" "333333" 0 true {} {}
          teamMemberBody).store "uid-wa" = some u ∧ u.email = teamMemberBody.email) ∧
    ((register (fun p => p) "uid-wb" "444444" 0 true {} {}
        contractorNoAgreementBody).response.status = 400 ∧
      (register (fun p => p) "uid-wb" "444444" 0 true {} {}
        contractorNoAgreementBody).response.message =
        "You must agree to all terms and conditions to register as a contractor" ∧
      ∃ u, getUserById (register (fun p => p) "uid-wb" "444444" 0 true {} {}
          contractorNoAgreementBody).store "uid-wb" = some u ∧
        u.email = contractorNoAgreementBody.email) :=
  ⟨(register_not_atomic_on_validation_failure (fun p => p) "uid-wa" "333333" 0 true
      {} {} teamMemberBody "Acme Industrial" "" "" "" "").1
      (by decide) (by decide) rfl rfl (by decide) (by decide),
   (register_not_atomic_on_validation_failure (fun p => p) "uid-wb" "444444" 0 true
      {} {} contractorNoAgreementBody "A B C D" "1 Main St" "Calgary" "AB" "CA").2
      (by decide) (by decide) rfl rfl rfl (by decide) rfl (by decide) rfl (by decide)
      rfl (by decide) rfl (by decide) rfl rfl⟩

end Semi
